import Mathlib

/-!
Shallow embedding of the Endurain frontend authentication/session subsystem:
the Pinia auth store (stores/authStore), the service utilities
(utils/serviceUtils.js: header injection, low-level transport, 401 retry and
refresh coordination), the session service wrappers, and the PKCE utilities.
Network interaction is modelled by a script of backend responses consumed in
call order; the browser effects (network calls, redirects, websocket
open/close) are recorded in an explicit effect log.
-/

/-- Nullable JS string: none models null/undefined. -/
abbrev JStr := Option String

/-- JS truthiness of a nullable string: null, undefined and the empty string are falsy. -/
def truthy : JStr → Bool
  | none => false
  | some s => !(s == (""))

/-- Substring membership on character lists, modelling JS String.prototype.includes. -/
def containsSub (needle : List Char) : List Char → Bool
  | [] => needle.isEmpty
  | c :: rest => List.isPrefixOf needle (c :: rest) || containsSub needle rest

/-- JS hay.includes(needle) on Lean strings. -/
def jsIncludes (hay needle : String) : Bool := containsSub needle.data hay.data

/-- JS hay.startsWith(p) on Lean strings. -/
def jsStartsWith (hay p : String) : Bool := List.isPrefixOf p.data hay.data

/-- The request header fields this subsystem reads or writes
(Authorization, X-CSRF-Token, Content-Type, X-Client-Type). -/
structure Headers where
  authorization : Option String := none
  xCsrfToken : Option String := none
  contentType : Option String := none
  xClientType : Option String := none
deriving DecidableEq, Repr

/-- Request options as passed to fetch: the method and the headers object. -/
structure ReqOptions where
  method : String := ("GET")
  headers : Headers := {}
deriving DecidableEq, Repr

/-- The user identity record held by the auth store; field defaults are the
initial values of the store's state() user object (authStore). -/
structure User where
  id : Option Nat := none
  name : Option String := none
  username : Option String := none
  email : Option String := none
  city : Option String := none
  birthdate : Option String := none
  preferred_language : Option String := none
  gender : Option String := none
  units : Option String := none
  height : Option Nat := none
  access_type : Option Nat := none
  photo_path : Option String := none
  active : Option Bool := none
  first_day_of_week : String := ("monday")
  currency : Option String := none
  max_heart_rate : Option Nat := none
  is_strava_linked : Option Bool := none
  is_garminconnect_linked : Option Bool := none
  default_activity_visibility : String := ("public")
  hide_activity_start_time : Bool := false
  hide_activity_location : Bool := false
  hide_activity_map : Bool := false
  hide_activity_hr : Bool := false
  hide_activity_power : Bool := false
  hide_activity_cadence : Bool := false
  hide_activity_elevation : Bool := false
  hide_activity_speed : Bool := false
  hide_activity_pace : Bool := false
  hide_activity_laps : Bool := false
  hide_activity_workout_sets_steps : Bool := false
  hide_activity_gear : Bool := false
deriving DecidableEq, Repr

/-- The cleared user record written by the store's state() and clearUser. -/
def emptyUser : User := {}

/-- WebSocket readyState values. -/
inductive WSReady where
  | connecting
  | openState
  | closingState
  | closedState
deriving DecidableEq, Repr

/-- A websocket handle: the access token it was opened with and its readyState. -/
structure WebSock where
  token : Option String := none
  ready : WSReady := WSReady.connecting
deriving DecidableEq, Repr

/-- The auth store state (authStore state()): user record, authentication flag,
websocket handle, session id and the two in-memory tokens. -/
structure AuthStore where
  user : User := {}
  isAuthenticated : Bool := false
  user_websocket : Option WebSock := none
  session_id : Option String := none
  accessToken : Option String := none
  csrfToken : Option String := none
deriving DecidableEq, Repr

/-- The slice of localStorage the auth store touches. -/
structure Storage where
  user : Option User := none
  session_id : Option String := none
  lang : Option String := none
deriving DecidableEq, Repr

/-- The Authorization allow-list test of serviceUtils.js addAuthHeaders
(the negation of its first guard): public endpoints that never get a bearer. -/
def isPublicUrl (url : String) : Bool :=
  url == ("auth/login") || url == ("password-reset/request") ||
  url == ("password-reset/confirm") || url == ("sign-up/request") ||
  url == ("sign-up/confirm") || jsStartsWith url ("public/")

/-- The CSRF allow-list test of serviceUtils.js addAuthHeaders
(the negation of the url part of its second guard). -/
def csrfExemptUrl (url : String) : Bool :=
  url == ("auth/login") || url == ("auth/mfa/verify") ||
  url == ("password-reset/request") || url == ("password-reset/confirm") ||
  url == ("sign-up/request") || url == ("sign-up/confirm")

/-- serviceUtils.js addAuthHeaders: spreads an Authorization bearer header into
options.headers unless the url is public (and only for a truthy in-memory token),
then spreads an X-CSRF-Token header on state-changing methods unless the url is
exempt (and only for a truthy in-memory CSRF token). -/
def addAuthHeaders (url : String) (options : ReqOptions) (store : AuthStore) : ReqOptions :=
  let options :=
    if !(isPublicUrl url) then
      if truthy store.accessToken then
        { options with headers := { options.headers with
            authorization := some ((("Bearer ")) ++ store.accessToken.getD ((""))) } }
      else options
    else options
  if ((options.method == ("POST") || options.method == ("PUT") ||
        options.method == ("DELETE") || options.method == ("PATCH")) &&
      !(csrfExemptUrl url)) then
    if truthy store.csrfToken then
      { options with headers := { options.headers with xCsrfToken := store.csrfToken } }
    else options
  else options

/-- The JSON body of a backend response; fields the auth code reads are explicit,
tag stands for any other payload content. All fields are none for non-auth bodies. -/
structure Body where
  tag : String := ((""))
  access_token : Option String := none
  csrf_token : Option String := none
  session_id : Option String := none
deriving DecidableEq, Repr

/-- One scripted backend HTTP response: status, the error payload's detail field
(none when absent or when the payload has no detail) and the success body. -/
structure HttpResponse where
  status : Nat := 200
  detail : Option String := none
  body : Body := {}
deriving DecidableEq, Repr

/-- Fetch-API response.ok: status in the 2xx range. -/
def respOk (status : Nat) : Bool := 200 ≤ status && status ≤ 299

/-- The error message string attemptFetch throws: status, a separator, and the
payload's detail field, falling back to a fixed text when detail is falsy. -/
def errorMessageOf (status : Nat) (detail : Option String) : String :=
  (toString status) ++ ((" - ")) ++
    (if truthy detail then detail.getD (("")) else (("Unknown error")))

/-- serviceUtils.js attemptFetch applied to one backend response: a non-2xx
status throws the composed error message, a 204 resolves null without reading
the body, and any other 2xx resolves the parsed body. -/
def attemptFetch (resp : HttpResponse) : Except String (Option Body) :=
  if !(respOk resp.status) then
    Except.error (errorMessageOf resp.status resp.detail)
  else if resp.status == 204 then
    Except.ok none
  else
    Except.ok (some resp.body)

deriving instance DecidableEq for Except

example : attemptFetch { status := 401, detail := some (("Invalid MFA code")) } =
    Except.error (("401 - Invalid MFA code")) := by decide

example : attemptFetch { status := 204 } = Except.ok none := by decide

/-- Observable browser effects: an outbound network call with its final options,
a location redirect, and websocket close/open. -/
inductive Effect where
  | netCall (url : String) (options : ReqOptions)
  | redirectTo (target : String)
  | wsClose
  | wsOpenEff (token : Option String)
deriving DecidableEq, Repr

/-- The world a scenario runs in: the auth store, the localStorage slice, the
remaining script of backend responses (consumed in call order) and the log of
effects performed so far. -/
structure World where
  store : AuthStore := {}
  storage : Storage := {}
  script : List HttpResponse := []
  effects : List Effect := []
deriving DecidableEq, Repr

/-- Pops the next scripted backend response; an exhausted script behaves as a
network failure (status 0, surfaced as a thrown error by the transport). -/
def popResponse (w : World) : HttpResponse × World :=
  match w.script with
  | [] => ({ status := 0, detail := some (("NETWORK_ERROR")) }, w)
  | r :: rest => (r, { w with script := rest })

/-- Performs one network attempt: records the call effect, consumes the next
scripted response and classifies it through attemptFetch. -/
def netAttempt (url : String) (options : ReqOptions) (w : World) :
    World × Except String (Option Body) :=
  let pr := popResponse w
  ({ pr.2 with effects := pr.2.effects ++ [Effect.netCall url options] },
   attemptFetch pr.1)

/-- JS String() coercion of a nullable string, as applied by localStorage.setItem. -/
def jsStringOf : Option String → String
  | none => (("null"))
  | some s => s

/-- authStore.setLocale: records the language in localStorage (the i18n locale
ref is outside this model). -/
def setLocaleStorage (st : Storage) (language : Option String) : Storage :=
  { st with lang := some (jsStringOf language) }

/-- authStore.clearUser: resets the flag, the user record, the websocket (closing
it when open), the session id and both tokens, removes the persisted user and
session id, and sets the locale to the default. -/
def AuthStore.clearUser (s : AuthStore) (st : Storage) :
    AuthStore × Storage × List Effect :=
  let closeEff : List Effect :=
    match s.user_websocket with
    | some ws => if ws.ready = WSReady.openState then [Effect.wsClose] else []
    | none => []
  let s1 : AuthStore :=
    { s with isAuthenticated := false, user := emptyUser, user_websocket := none,
             session_id := none, accessToken := none, csrfToken := none }
  let st1 := setLocaleStorage { st with user := none, session_id := none } (some (("us")))
  (s1, st1, closeEff)

/-- authStore.loadUserFromStorage: when a persisted user exists, restores the
user record and the persisted session id, marks the session authenticated and
applies the stored locale; tokens are not touched and the websocket stays down. -/
def AuthStore.loadUserFromStorage (s : AuthStore) (st : Storage) : AuthStore × Storage :=
  match st.user with
  | none => (s, st)
  | some u =>
    let st1 := setLocaleStorage st u.preferred_language
    ({ s with user := u, isAuthenticated := true, session_id := st.session_id }, st1)

/-- authStore.setUserWebsocket: opens a fresh websocket carrying the current
access token; a new socket starts in the connecting readyState. -/
def AuthStore.setUserWebsocket (s : AuthStore) : AuthStore × List Effect :=
  ({ s with user_websocket := some { token := s.accessToken, ready := WSReady.connecting } },
   [Effect.wsOpenEff s.accessToken])

/-- authStore.setUserSessionId: stores the session id in memory and persists it. -/
def AuthStore.setUserSessionId (s : AuthStore) (st : Storage) (sid : Option String) :
    AuthStore × Storage :=
  ({ s with session_id := sid }, { st with session_id := some (jsStringOf sid) })

/-- authStore.setUser: replaces the user record, persists it, stores the session
id, marks the session authenticated, opens the websocket and applies the user's
preferred locale. -/
def AuthStore.setUser (s : AuthStore) (st : Storage) (userData : User)
    (sid : Option String) : AuthStore × Storage × List Effect :=
  let s1 := { s with user := userData }
  let st1 := { st with user := some userData }
  let r2 := AuthStore.setUserSessionId s1 st1 sid
  let s3 := { r2.1 with isAuthenticated := true }
  let r4 := AuthStore.setUserWebsocket s3
  let st3 := setLocaleStorage r2.2 userData.preferred_language
  (r4.1, st3, r4.2)

/-- authStore.setAccessToken. -/
def AuthStore.setAccessToken (s : AuthStore) (token : Option String) : AuthStore :=
  { s with accessToken := token }

/-- authStore.setCsrfToken. -/
def AuthStore.setCsrfToken (s : AuthStore) (token : Option String) : AuthStore :=
  { s with csrfToken := token }

/-- A JS async result as seen by a caller of fetchWithRetry: a value (possibly
null, as for a 204) or undefined (the function returned without a value). -/
inductive JsVal where
  | undef
  | val (body : Option Body)
deriving DecidableEq, Repr

/-- authStore.refreshAccessToken restricted to its store mutation: the outcome of
session.refreshToken is passed in as net. A truthy access_token is stored, a
truthy csrf_token along with it, and an open websocket is reopened with the new
token; a falsy response, a missing access_token or a network error clear both
tokens and the flag and rethrow. -/
def AuthStore.refreshOnOutcome (s : AuthStore) (net : Except String JsVal) :
    AuthStore × List Effect × Except String String :=
  match net with
  | Except.error e =>
    ({ s with accessToken := none, csrfToken := none, isAuthenticated := false },
     [], Except.error e)
  | Except.ok jsv =>
    match jsv with
    | JsVal.val (some b) =>
      if truthy b.access_token then
        let s1 := { s with accessToken := b.access_token }
        let s2 := if truthy b.csrf_token then { s1 with csrfToken := b.csrf_token } else s1
        match s2.user_websocket with
        | some ws =>
          if ws.ready = WSReady.openState then
            let r := AuthStore.setUserWebsocket s2
            (r.1, [Effect.wsClose] ++ r.2, Except.ok (b.access_token.getD ((""))))
          else (s2, [], Except.ok (b.access_token.getD ((""))))
        | none => (s2, [], Except.ok (b.access_token.getD ((""))))
      else
        ({ s with accessToken := none, csrfToken := none, isAuthenticated := false },
         [], Except.error (("No access token in refresh response")))
    | _ =>
      ({ s with accessToken := none, csrfToken := none, isAuthenticated := false },
       [], Except.error (("No access token in refresh response")))

/-- Options built by fetchPostRequest: a JSON POST carrying the client type. -/
def postJsonOptions : ReqOptions :=
  { method := ("POST"),
    headers := { contentType := some (("application/json")),
                 xClientType := some (("web")) } }

/-- Options built by fetchGetRequest: a JSON GET carrying the client type. -/
def getJsonOptions : ReqOptions :=
  { method := ("GET"),
    headers := { contentType := some (("application/json")),
                 xClientType := some (("web")) } }

/-- Deployment-configured frontend origin (window.env based), abstract here. -/
def FRONTEND_URL : String := ("ENDURAIN_HOST/")

mutual

/-- serviceUtils.js fetchWithRetry: injects headers, attempts the request once;
a 401 on an eligible url (not login/refresh/logout and not one of the two
message-matched terminal cases) triggers the auth store refresh, header
re-injection and a single retry, all inside a try whose catch runs logoutUser
and a redirect to the login page and lets the function return undefined;
any other error propagates. Fuel bounds the depth of nested service calls. -/
def fetchWithRetry (fuel : Nat) (url : String) (options0 : ReqOptions) (w0 : World) :
    World × Except String JsVal :=
  match fuel with
  | 0 => (w0, Except.error (("OUT_OF_FUEL")))
  | Nat.succ fuel' =>
    let options := addAuthHeaders url options0 w0.store
    let res := netAttempt url options w0
    match res.2 with
    | Except.ok v => (res.1, Except.ok (JsVal.val v))
    | Except.error e =>
      if (jsStartsWith e (("401")) &&
          !(url == (("auth/login"))) && !(url == (("auth/refresh"))) &&
          !(url == (("auth/logout")))) then
        if (url == (("garminconnect/link")) &&
            jsIncludes e (("There was an authentication error using Garmin Connect"))) then
          (res.1, Except.error e)
        else if (url == (("mfa/verify")) && jsIncludes e (("Invalid MFA code"))) then
          (res.1, Except.error e)
        else
          let rr := authStoreRefreshAccessToken fuel' res.1
          match rr.2 with
          | Except.ok _ =>
            let options2 := addAuthHeaders url options rr.1.store
            let res2 := netAttempt url options2 rr.1
            match res2.2 with
            | Except.ok v => (res2.1, Except.ok (JsVal.val v))
            | Except.error _ =>
              let w3 := logoutUser fuel' res2.1
              let w4 := { w3 with effects := w3.effects ++
                [Effect.redirectTo (FRONTEND_URL ++ ("login?sessionExpired=true"))] }
              (w4, Except.ok JsVal.undef)
          | Except.error _ =>
            let w3 := logoutUser fuel' rr.1
            let w4 := { w3 with effects := w3.effects ++
              [Effect.redirectTo (FRONTEND_URL ++ ("login?sessionExpired=true"))] }
            (w4, Except.ok JsVal.undef)
      else
        (res.1, Except.error e)

/-- authStore.refreshAccessToken as run in the world model: session.refreshToken
is a POST to auth/refresh through fetchWithRetry, and the store mutation on its
outcome is AuthStore.refreshOnOutcome. -/
def authStoreRefreshAccessToken (fuel : Nat) (w0 : World) : World × Except String String :=
  match fuel with
  | 0 => (w0, Except.error (("OUT_OF_FUEL")))
  | Nat.succ fuel' =>
    let res := fetchWithRetry fuel' (("auth/refresh")) postJsonOptions w0
    let r := AuthStore.refreshOnOutcome res.1.store res.2
    ({ res.1 with store := r.1, effects := res.1.effects ++ r.2.1 }, r.2.2)

/-- authStore.logoutUser with a null router: when either token is missing it
first attempts a refresh (failures only logged), then attempts the backend
logout via a POST to auth/logout (failures only logged), and always ends by
clearing the user state. -/
def logoutUser (fuel : Nat) (w0 : World) : World :=
  match fuel with
  | 0 => w0
  | Nat.succ fuel' =>
    let w1 :=
      if (!(truthy w0.store.csrfToken) || !(truthy w0.store.accessToken)) then
        (authStoreRefreshAccessToken fuel' w0).1
      else w0
    let w2 := (fetchWithRetry fuel' (("auth/logout")) postJsonOptions w1).1
    let r := AuthStore.clearUser w2.store w2.storage
    { w2 with store := r.1, storage := r.2.1, effects := w2.effects ++ r.2.2 }

end

/-- serviceUtils.js refreshAccessToken, the module-level refresh coordinator
built around the refreshTokenPromise pending marker (note: it posts to a url of
refresh, and nothing in the module calls it; fetchWithRetry invokes the auth
store refresh instead). Modelled for a call that finds no pending promise: the
scripted response is classified by attemptFetch, tokens and session id are
stored field-by-field on success, a null response faults when its fields are
read, and a finally step clears the marker in every case. Returned are the
final marker value, the updated store and storage, and the outcome every caller
awaiting the shared promise observes. -/
def serviceRefreshAccessToken (store : AuthStore) (st : Storage) (resp : HttpResponse) :
    Bool × AuthStore × Storage × Except String (Option Body) :=
  match attemptFetch resp with
  | Except.error e => (false, store, st, Except.error e)
  | Except.ok v =>
    match v with
    | none => (false, store, st, Except.error (("TypeError: response is null")))
    | some b =>
      let s1 := if truthy b.access_token
        then AuthStore.setAccessToken store b.access_token else store
      let s2 := if truthy b.csrf_token
        then AuthStore.setCsrfToken s1 b.csrf_token else s1
      let r3 := if truthy b.session_id
        then AuthStore.setUserSessionId s2 st b.session_id else (s2, st)
      (false, r3.1, r3.2, Except.ok (some b))

/-- Number of network calls to a given url recorded in an effect log. -/
def countNetCalls (url : String) (effs : List Effect) : Nat :=
  (effs.filter (fun e =>
    match e with
    | Effect.netCall u _ => u == url
    | _ => false)).length

/-- Program counter of one 401-recovery task: about to start the refresh network
call, suspended awaiting its response, or finished. -/
inductive TaskPC where
  | start
  | awaitingResp
  | taskDone
deriving DecidableEq, Repr

/-- Shared observations for concurrent refresh calls: how many network calls to
auth/refresh have been issued, how many are currently in flight, and the maximum
simultaneously in flight. -/
structure ConcState where
  calls : Nat := 0
  inFlight : Nat := 0
  maxInFlight : Nat := 0
deriving DecidableEq, Repr

/-- One scheduler step of a single 401-recovery task on the code's actual path:
fetchWithRetry calls authStore.refreshAccessToken, whose synchronous prefix up
to the awaited fetch of session.refreshToken consults no shared pending-refresh
marker (the module-level refreshTokenPromise is read only inside the uncalled
serviceUtils refreshAccessToken), so a task at its first suspension point
unconditionally issues its own network call to auth/refresh; the second step
receives the response and completes. -/
def storeRefreshStep (pc : TaskPC) (c : ConcState) : TaskPC × ConcState :=
  match pc with
  | TaskPC.start =>
    let infl := c.inFlight + 1
    (TaskPC.awaitingResp,
     { calls := c.calls + 1, inFlight := infl, maxInFlight := max c.maxInFlight infl })
  | TaskPC.awaitingResp => (TaskPC.taskDone, { c with inFlight := c.inFlight - 1 })
  | TaskPC.taskDone => (TaskPC.taskDone, c)

/-- Runs two 401-recovery tasks under an interleaving schedule: a false entry
steps the first task, a true entry the second. -/
def runTwo (sched : List Bool) (p1 p2 : TaskPC) (c : ConcState) :
    TaskPC × TaskPC × ConcState :=
  match sched with
  | [] => (p1, p2, c)
  | b :: rest =>
    if b then
      let r := storeRefreshStep p2 c
      runTwo rest p1 r.1 r.2
    else
      let r := storeRefreshStep p1 c
      runTwo rest r.1 p2 r.2

/-- The base64 alphabet indexed by 6-bit value (RFC 4648). -/
def b64Alphabet : List Char :=
  (List.range 26).map (fun i => Char.ofNat (65 + i)) ++
  (List.range 26).map (fun i => Char.ofNat (97 + i)) ++
  (List.range 10).map (fun i => Char.ofNat (48 + i)) ++ [('+'), ('/')]

/-- Lookup of a 6-bit value in the base64 alphabet. -/
def b64CharAt (i : Nat) : Char := b64Alphabet.getD i ('?')

/-- btoa applied to the binary string built from a byte list: standard base64,
three bytes per group, '=' padding on a final partial group. -/
def btoaChunks : List Nat → List Char
  | [] => []
  | [b1] => [b64CharAt (b1 / 4), b64CharAt (b1 % 4 * 16), ('='), ('=')]
  | [b1, b2] => [b64CharAt (b1 / 4), b64CharAt (b1 % 4 * 16 + b2 / 16),
                 b64CharAt (b2 % 16 * 4), ('=')]
  | b1 :: b2 :: b3 :: rest =>
    [b64CharAt (b1 / 4), b64CharAt (b1 % 4 * 16 + b2 / 16),
     b64CharAt (b2 % 16 * 4 + b3 / 64), b64CharAt (b3 % 64)] ++ btoaChunks rest

/-- The two character replacements base64URLEncode applies to the base64 text. -/
def b64UrlChar (c : Char) : Char :=
  if c = ('+') then ('-') else if c = ('/') then ('_') else c

/-- Removal of the trailing padding run, modelling the final replace. -/
def dropTrailingEq (cs : List Char) : List Char :=
  ((cs.reverse).dropWhile (fun c => c == ('='))).reverse

/-- serviceUtils base64URLEncode: base64 via btoa, then plus to minus, slash to
underscore, and the trailing padding stripped. -/
def base64URLEncode (bytes : List Nat) : List Char :=
  dropTrailingEq ((btoaChunks bytes).map b64UrlChar)

/-- generateCodeVerifier as a function of the 32 random bytes drawn from the
crypto source: base64url-encode them. -/
def generateCodeVerifier (randomBytes : List Nat) : List Char :=
  base64URLEncode randomBytes

/-- generateCodeChallenge parameterized by the digest pipeline (TextEncoder
UTF-8 encoding followed by the platform SHA-256 of crypto.subtle, both external
to the repository); the pipeline's contract is a 32-byte digest. The function
base64url-encodes the digest of the verifier. -/
def generateCodeChallenge (digest : List Char → List Nat) (verifier : List Char) : List Char :=
  base64URLEncode (digest verifier)

/-- Unreserved characters of the validateCodeVerifier regex. -/
def isUnreservedChar (c : Char) : Bool :=
  (('A') ≤ c && c ≤ ('Z')) || (('a') ≤ c && c ≤ ('z')) ||
  (('0') ≤ c && c ≤ ('9')) ||
  c == ('-') || c == ('.') || c == ('_') || c == ('~')

/-- Characters of the validateCodeChallenge base64url regex. -/
def isB64UrlCharB (c : Char) : Bool :=
  (('A') ≤ c && c ≤ ('Z')) || (('a') ≤ c && c ≤ ('z')) ||
  (('0') ≤ c && c ≤ ('9')) ||
  c == ('-') || c == ('_')

/-- validateCodeVerifier: length within 43 to 128 and every character unreserved
(the anchored regex also demands at least one character). -/
def validateCodeVerifier (verifier : List Char) : Bool :=
  if verifier.length < 43 || verifier.length > 128 then false
  else !(verifier.isEmpty) && verifier.all isUnreservedChar

/-- validateCodeChallenge: length exactly 43 and every character base64url. -/
def validateCodeChallenge (challenge : List Char) : Bool :=
  if !(challenge.length == 43) then false
  else !(challenge.isEmpty) && challenge.all isB64UrlCharB

example : btoaChunks [77, 97, 110] = [('T'), ('W'), ('F'), ('u')] := by decide

example : btoaChunks [77, 97] = [('T'), ('W'), ('E'), ('=')] := by decide

example : (base64URLEncode (List.replicate 32 0)).length = 43 := by decide

/-- Every mapped alphabet character is base64url, unreserved, and not padding. -/
theorem b64props : ∀ i : Fin 64,
    isB64UrlCharB (b64UrlChar (b64CharAt i.val)) = true ∧
    isUnreservedChar (b64UrlChar (b64CharAt i.val)) = true ∧
    ¬(b64UrlChar (b64CharAt i.val) = ('=')) := by decide

/-- Structure of the base64 text of a byte list of length 3k+2: alphabet
characters followed by exactly one padding character. -/
theorem btoaChunks_spec (k : Nat) : ∀ (bs : List Nat), bs.length = 3 * k + 2 →
    (∀ b ∈ bs, b < 256) →
    ∃ pre, btoaChunks bs = pre ++ [('=')] ∧ pre.length = 4 * k + 3 ∧
      ∀ c ∈ pre, ∃ i, i < 64 ∧ c = b64CharAt i := by
  induction k with
  | zero =>
    intro bs hlen hb
    match bs, hlen with
    | [b1, b2], _ =>
      have h1 : b1 < 256 := hb b1 (by simp)
      have h2 : b2 < 256 := hb b2 (by simp)
      refine ⟨[b64CharAt (b1 / 4), b64CharAt (b1 % 4 * 16 + b2 / 16),
               b64CharAt (b2 % 16 * 4)], by simp [btoaChunks], by simp, ?_⟩
      intro c hc
      simp only [List.mem_cons, List.not_mem_nil, or_false] at hc
      rcases hc with rfl | rfl | rfl
      · exact ⟨b1 / 4, by omega, rfl⟩
      · exact ⟨b1 % 4 * 16 + b2 / 16, by omega, rfl⟩
      · exact ⟨b2 % 16 * 4, by omega, rfl⟩
  | succ k ih =>
    intro bs hlen hb
    match bs, hlen with
    | b1 :: b2 :: b3 :: rest, hlen =>
      have h1 : b1 < 256 := hb b1 (by simp)
      have h2 : b2 < 256 := hb b2 (by simp)
      have h3 : b3 < 256 := hb b3 (by simp)
      have hrest : rest.length = 3 * k + 2 := by
        simp only [List.length_cons] at hlen
        omega
      obtain ⟨pre, hEq, hLen, hMem⟩ := ih rest hrest (fun b hbm => hb b (by simp [hbm]))
      refine ⟨[b64CharAt (b1 / 4), b64CharAt (b1 % 4 * 16 + b2 / 16),
               b64CharAt (b2 % 16 * 4 + b3 / 64), b64CharAt (b3 % 64)] ++ pre,
              ?_, ?_, ?_⟩
      · simp [btoaChunks, hEq]
      · simp only [List.length_append, List.length_cons, List.length_nil, hLen]
        omega
      · intro c hc
        simp only [List.mem_append, List.mem_cons, List.not_mem_nil, or_false] at hc
        rcases hc with (rfl | rfl | rfl | rfl) | hmem
        · exact ⟨b1 / 4, by omega, rfl⟩
        · exact ⟨b1 % 4 * 16 + b2 / 16, by omega, rfl⟩
        · exact ⟨b2 % 16 * 4 + b3 / 64, by omega, rfl⟩
        · exact ⟨b3 % 64, by omega, rfl⟩
        · exact hMem c hmem

/-- Stripping the padding from text that ends in exactly one padding character. -/
theorem dropTrailingEq_append (pre : List Char) (h : ∀ c ∈ pre, ¬(c = ('='))) :
    dropTrailingEq (pre ++ [('=')]) = pre := by
  unfold dropTrailingEq
  rw [List.reverse_append]
  simp only [List.reverse_cons, List.reverse_nil, List.nil_append, List.singleton_append,
    List.dropWhile_cons, beq_self_eq_true, if_true]
  have hsame : List.dropWhile (fun c => c == ('=')) pre.reverse = pre.reverse := by
    cases hrev : pre.reverse with
    | nil => simp
    | cons a t =>
      have ha : a ∈ pre := by
        rw [← List.mem_reverse, hrev]
        simp
      have hne : (a == ('=')) = false := by
        simpa using h a ha
      simp [List.dropWhile_cons, hne]
  rw [hsame, List.reverse_reverse]

/-- Length and character set of base64URLEncode on byte lists of length 3k+2. -/
theorem base64URLEncode_spec (bs : List Nat) (k : Nat) (hlen : bs.length = 3 * k + 2)
    (hb : ∀ b ∈ bs, b < 256) :
    (base64URLEncode bs).length = 4 * k + 3 ∧
    ∀ c ∈ base64URLEncode bs, isB64UrlCharB c = true ∧ isUnreservedChar c = true := by
  obtain ⟨pre, hEq, hLen, hMem⟩ := btoaChunks_spec k bs hlen hb
  have hmap : ∀ c ∈ pre.map b64UrlChar,
      isB64UrlCharB c = true ∧ isUnreservedChar c = true ∧ ¬(c = ('='))  := by
    intro c hc
    rcases List.mem_map.mp hc with ⟨c0, hc0, rfl⟩
    rcases hMem c0 hc0 with ⟨i, hi, rfl⟩
    have hp := b64props ⟨i, hi⟩
    exact ⟨hp.1, hp.2.1, hp.2.2⟩
  have hbu : base64URLEncode bs = pre.map b64UrlChar := by
    unfold base64URLEncode
    rw [hEq, List.map_append]
    have hpad : ([('=')]).map b64UrlChar = [('=')] := by decide
    rw [hpad]
    exact dropTrailingEq_append _ (fun c hc => (hmap c hc).2.2)
  constructor
  · rw [hbu, List.length_map, hLen]
  · intro c hc
    rw [hbu] at hc
    exact ⟨(hmap c hc).1, (hmap c hc).2.1⟩

/-- Validation succeeds on any 43-character text of base64url characters. -/
theorem validate_of (cs : List Char) (hl : cs.length = 43)
    (hall : ∀ c ∈ cs, isB64UrlCharB c = true ∧ isUnreservedChar c = true) :
    validateCodeVerifier cs = true ∧ validateCodeChallenge cs = true := by
  cases cs with
  | nil => simp at hl
  | cons a t =>
    have h1 : validateCodeVerifier (a :: t) = (List.all (a :: t) isUnreservedChar) := by
      unfold validateCodeVerifier
      rw [hl]
      simp
    have h2 : validateCodeChallenge (a :: t) = (List.all (a :: t) isB64UrlCharB) := by
      unfold validateCodeChallenge
      rw [hl]
      simp
    rw [h1, h2, List.all_eq_true, List.all_eq_true]
    exact ⟨fun c hc => (hall c hc).2, fun c hc => (hall c hc).1⟩

/-- C6 (PKCE round-trip): every string generateCodeVerifier produces from the 32
random bytes is exactly 43 characters and satisfies validateCodeVerifier;
generateCodeChallenge is deterministic in the verifier, its output is exactly 43
characters, and that output satisfies validateCodeChallenge. The digest argument
is the external UTF-8 and SHA-256 pipeline, contracted to 32 output bytes. -/
theorem pkce_round_trip (randomBytes : List Nat) (digest : List Char → List Nat)
    (verifier : List Char)
    (hlen : randomBytes.length = 32) (hbytes : ∀ b ∈ randomBytes, b < 256)
    (hdlen : ∀ v, (digest v).length = 32) (hdbytes : ∀ v, ∀ b ∈ digest v, b < 256) :
    (generateCodeVerifier randomBytes).length = 43 ∧
    validateCodeVerifier (generateCodeVerifier randomBytes) = true ∧
    generateCodeChallenge digest verifier = generateCodeChallenge digest verifier ∧
    (generateCodeChallenge digest verifier).length = 43 ∧
    validateCodeChallenge (generateCodeChallenge digest verifier) = true := by
  have hv := base64URLEncode_spec randomBytes 10 (by omega) hbytes
  have hcd := base64URLEncode_spec (digest verifier) 10
    (by have := hdlen verifier; omega) (hdbytes verifier)
  have hvl : (generateCodeVerifier randomBytes).length = 43 := by
    unfold generateCodeVerifier
    rw [hv.1]
  have hcl : (generateCodeChallenge digest verifier).length = 43 := by
    unfold generateCodeChallenge
    rw [hcd.1]
  have hvval := validate_of (generateCodeVerifier randomBytes) hvl
    (fun c hc => hv.2 c hc)
  have hcval := validate_of (generateCodeChallenge digest verifier) hcl
    (fun c hc => hcd.2 c hc)
  exact ⟨hvl, hvval.1, rfl, hcl, hcval.2⟩

/-- Witness for C6 at the all-zero byte array and a constant all-zero digest. -/
theorem pkce_round_trip_witness :
    (List.replicate 32 0).length = 32 ∧
    (∀ b ∈ List.replicate 32 0, b < 256) ∧
    (generateCodeVerifier (List.replicate 32 0)).length = 43 ∧
    validateCodeVerifier (generateCodeVerifier (List.replicate 32 0)) = true ∧
    validateCodeChallenge
      (generateCodeChallenge (fun _ => List.replicate 32 1) [('a')]) = true := by
  have h := pkce_round_trip (List.replicate 32 0) (fun _ => List.replicate 32 1)
    [('a')] (by decide) (by decide) (fun v => by simp)
    (fun v b hb => by simp [List.mem_replicate] at hb; omega)
  exact ⟨by decide, by decide, h.1, h.2.1, h.2.2.2.2⟩

/-- A truthy nullable string is present. -/
theorem isSome_of_truthy (x : JStr) (h : truthy x = true) : x.isSome = true := by
  cases x with
  | none => simp [truthy] at h
  | some s => rfl

/-- Authorization projection of addAuthHeaders: the CSRF stage never touches it,
so it is the bearer exactly when the url is not public and the token truthy. -/
theorem addAuthHeaders_authorization (u : String) (opts : ReqOptions) (s : AuthStore) :
    (addAuthHeaders u opts s).headers.authorization =
      (if isPublicUrl u = false ∧ truthy s.accessToken = true
       then some ((("Bearer ")) ++ s.accessToken.getD (("")))
       else opts.headers.authorization) := by
  unfold addAuthHeaders
  cases h1 : isPublicUrl u <;> cases h2 : truthy s.accessToken <;>
    cases h3 : truthy s.csrfToken <;>
      simp [h1, h2, h3] <;> split <;> simp

/-- C5 (public endpoint exemption): starting from options without an
Authorization header, a request to auth/login (or any other allow-listed public
endpoint) never gets one, even when a stale access token is in memory; every
other endpoint gets the bearer of the in-memory access token exactly when one
is (truthy) present. -/
theorem public_endpoint_exemption (url : String) (opts : ReqOptions)
    (s : AuthStore) (hopts : opts.headers.authorization = none) :
    ((addAuthHeaders (("auth/login")) opts s).headers.authorization = none) ∧
    (isPublicUrl url = true →
      (addAuthHeaders url opts s).headers.authorization = none) ∧
    (isPublicUrl url = false →
      (addAuthHeaders url opts s).headers.authorization =
        (if truthy s.accessToken
         then some ((("Bearer ")) ++ s.accessToken.getD ((""))) else none)) := by
  refine ⟨?_, ?_, ?_⟩
  · rw [addAuthHeaders_authorization]
    have : isPublicUrl (("auth/login")) = true := by decide
    simp [this, hopts]
  · intro hpub
    rw [addAuthHeaders_authorization]
    simp [hpub, hopts]
  · intro hpriv
    rw [addAuthHeaders_authorization]
    cases h2 : truthy s.accessToken <;> simp [hpriv, h2, hopts]

/-- Witness for C5: a stale token in memory, a login request and a goals request. -/
theorem public_endpoint_exemption_witness :
    (({} : ReqOptions)).headers.authorization = none ∧
    (addAuthHeaders (("auth/login")) {}
      { accessToken := some (("stale")) }).headers.authorization = none ∧
    (addAuthHeaders (("profile/goals")) {}
      { accessToken := some (("stale")) }).headers.authorization =
        some (("Bearer stale")) := by
  have h := public_endpoint_exemption (("profile/goals")) {}
    { accessToken := some (("stale")) } rfl
  refine ⟨rfl, h.1, ?_⟩
  rw [h.2.2 (by decide)]
  rfl

/-- C8 (transport classification): a non-2xx status makes attemptFetch fail with
an error carrying the HTTP status and the message from the payload's detail
field, falling back to a fixed text when detail is absent or empty; a 204
succeeds with an empty result whatever the body holds. -/
theorem transport_classification (status : Nat) (d : Option String) (b : Body)
    (hfail : respOk status = false) :
    (attemptFetch { status := status, detail := d, body := b } =
      Except.error ((toString status) ++ ((" - ")) ++
        (match d with
         | some m => if m = (("")) then (("Unknown error")) else m
         | none => (("Unknown error"))))) ∧
    (∀ d2 b2, attemptFetch { status := 204, detail := d2, body := b2 } =
      Except.ok none) := by
  constructor
  · unfold attemptFetch errorMessageOf
    simp only [hfail, Bool.not_false, if_true]
    cases d with
    | none => simp [truthy]
    | some m =>
      by_cases hm : m = ("")
      · simp [truthy, hm]
      · simp [truthy, hm]
  · intro d2 b2
    unfold attemptFetch
    simp [respOk]

/-- Witness for C8 at a 500 with no detail and at a 204. -/
theorem transport_classification_witness :
    respOk 500 = false ∧
    attemptFetch { status := 500, detail := none, body := {} } =
      Except.error (("500 - Unknown error")) ∧
    attemptFetch { status := 204, detail := none, body := {} } = Except.ok none := by
  have h := transport_classification 500 none {} (by decide)
  refine ⟨by decide, ?_, h.2 none {}⟩
  rw [h.1]
  rfl

/-- C3 (coordinator failure frame): on a failed refresh the serviceUtils
coordinator hands the transport error to every caller awaiting the shared
promise, ends with the pending marker cleared by its finally step, and leaves
every session state field and the persisted storage unchanged. -/
theorem coordinator_failure_frame (store : AuthStore) (st : Storage)
    (resp : HttpResponse) (hfail : respOk resp.status = false) :
    serviceRefreshAccessToken store st resp =
      (false, store, st, Except.error (errorMessageOf resp.status resp.detail)) := by
  unfold serviceRefreshAccessToken attemptFetch
  simp [hfail]

/-- Witness for C3 at a populated authenticated store and a 401 refresh reply. -/
theorem coordinator_failure_frame_witness :
    respOk 401 = false ∧
    serviceRefreshAccessToken
      { user := { id := some 7 }, isAuthenticated := true,
        accessToken := some (("a1")), csrfToken := some (("c1")) }
      {} { status := 401, detail := some (("x")) } =
      (false,
       { user := { id := some 7 }, isAuthenticated := true,
         accessToken := some (("a1")), csrfToken := some (("c1")) },
       {}, Except.error (("401 - x"))) := by
  have h := coordinator_failure_frame
    { user := { id := some 7 }, isAuthenticated := true,
      accessToken := some (("a1")), csrfToken := some (("c1")) }
    {} { status := 401, detail := some (("x")) } (by decide)
  refine ⟨by decide, ?_⟩
  rw [h]
  rfl

/-- C9 (reload behavior): starting from the pristine startup store, loading a
persisted user leaves both tokens null while user and isAuthenticated are
populated from storage; a subsequent successful refresh (a 200 on auth/refresh
whose body carries truthy tokens) populates both tokens and leaves every user
field, in particular the id, unchanged. -/
theorem reload_then_refresh (st : Storage) (u : User) (b : Body)
    (hu : st.user = some u)
    (hat : truthy b.access_token = true) (hct : truthy b.csrf_token = true) :
    ((AuthStore.loadUserFromStorage {} st).1.accessToken = none ∧
     (AuthStore.loadUserFromStorage {} st).1.csrfToken = none ∧
     (AuthStore.loadUserFromStorage {} st).1.user = u ∧
     (AuthStore.loadUserFromStorage {} st).1.isAuthenticated = true) ∧
    (let w1 := (authStoreRefreshAccessToken 2
        { store := (AuthStore.loadUserFromStorage {} st).1,
          storage := (AuthStore.loadUserFromStorage {} st).2,
          script := [{ status := 200, detail := none, body := b }],
          effects := [] }).1
     w1.store.accessToken = b.access_token ∧
     w1.store.csrfToken = b.csrf_token ∧
     w1.store.accessToken.isSome = true ∧
     w1.store.csrfToken.isSome = true ∧
     w1.store.user = u ∧
     w1.store.user.id = u.id) := by
  have hload : AuthStore.loadUserFromStorage {} st =
      ({ user := u, isAuthenticated := true, session_id := st.session_id },
       setLocaleStorage st u.preferred_language) := by
    unfold AuthStore.loadUserFromStorage
    rw [hu]
  rw [hload]
  refine ⟨⟨rfl, rfl, rfl, rfl⟩, ?_⟩
  simp [authStoreRefreshAccessToken, fetchWithRetry, netAttempt, popResponse,
    attemptFetch, respOk, AuthStore.refreshOnOutcome, hat, hct,
    isSome_of_truthy b.access_token hat, isSome_of_truthy b.csrf_token hct]

/-- Witness for C9 at a concrete persisted user and refresh body. -/
theorem reload_then_refresh_witness :
    (({ user := some { id := some 7 } } : Storage)).user = some { id := some 7 } ∧
    truthy (some (("at2"))) = true ∧
    ((AuthStore.loadUserFromStorage {} { user := some { id := some 7 } }).1.accessToken
       = none ∧
     (AuthStore.loadUserFromStorage {} { user := some { id := some 7 } }).1.user.id
       = some 7) := by
  have h := reload_then_refresh { user := some { id := some 7 } }
    { id := some 7 }
    { access_token := some (("at2")), csrf_token := some (("ct2")) }
    rfl (by decide) (by decide)
  exact ⟨rfl, by decide, h.1.1, by rw [h.1.2.2.1]⟩

/-- The session state invariant of the spec: the two in-memory tokens are
present together or absent together, and the user record is populated only
while the session is marked authenticated. -/
def sessionInv (s : AuthStore) : Prop :=
  (s.accessToken.isSome = s.csrfToken.isSome) ∧
  (s.user ≠ emptyUser → s.isAuthenticated = true)

instance : DecidablePred sessionInv := fun s => by
  unfold sessionInv
  infer_instance

/-- Modelled from the spec: login completion (spec 4.5) on token receipt sets
accessToken, csrfToken and then user and sessionId together through the store
actions; the Vue login view performing this composition is not among the
provided sources, so the composition follows the spec's wording while each
constituent action is the store's own. -/
def loginCompletion (s : AuthStore) (st : Storage) (userData : User)
    (sid atk ctk : String) : AuthStore × Storage × List Effect :=
  let s1 := AuthStore.setAccessToken s (some atk)
  let s2 := AuthStore.setCsrfToken s1 (some ctk)
  AuthStore.setUser s2 st userData (some sid)

/-- C4 counterexample: from a populated authenticated state, the store's refresh
failure path clears tokens and the flag but leaves the user record populated,
breaking the half of the invariant that forbids a populated user while
isAuthenticated is false. -/
theorem session_invariant_counterexample :
    sessionInv { user := { id := some 7 }, isAuthenticated := true,
                 accessToken := some (("a1")), csrfToken := some (("c1")) } ∧
    ¬ sessionInv (AuthStore.refreshOnOutcome
        { user := { id := some 7 }, isAuthenticated := true,
          accessToken := some (("a1")), csrfToken := some (("c1")) }
        (Except.error (("401 - Unauthorized")))).1 := by
  constructor
  · decide
  · decide

/-- C4 amended: the invariant is preserved by logout/clear, by load-from-storage
from the startup store, by login completion, and by refresh success whose
response carries both tokens; refresh failure clears the token pair together
(preserving the token half of the invariant) but leaves the user record
untouched while setting isAuthenticated false, so the user half is
re-established only by the 401-handler's subsequent clearUser. -/
theorem session_invariant_amended (s : AuthStore) (st : Storage) (userData : User)
    (sid atk ctk : String) (b : Body) (e : String)
    (hs : sessionInv s)
    (hat : truthy b.access_token = true) (hct : truthy b.csrf_token = true) :
    sessionInv (AuthStore.clearUser s st).1 ∧
    sessionInv (AuthStore.loadUserFromStorage {} st).1 ∧
    sessionInv (loginCompletion s st userData sid atk ctk).1 ∧
    sessionInv (AuthStore.refreshOnOutcome s (Except.ok (JsVal.val (some b)))).1 ∧
    ((AuthStore.refreshOnOutcome s (Except.error e)).1.accessToken = none ∧
     (AuthStore.refreshOnOutcome s (Except.error e)).1.csrfToken = none ∧
     (AuthStore.refreshOnOutcome s (Except.error e)).1.user = s.user ∧
     (AuthStore.refreshOnOutcome s (Except.error e)).1.isAuthenticated = false) := by
  rcases hs with ⟨hpair, huser⟩
  refine ⟨?_, ?_, ?_, ?_, ?_⟩
  · unfold AuthStore.clearUser sessionInv
    simp
  · unfold AuthStore.loadUserFromStorage
    cases hsu : st.user with
    | none => simp [sessionInv, emptyUser]
    | some u => simp [sessionInv]
  · unfold loginCompletion AuthStore.setUser AuthStore.setUserSessionId
      AuthStore.setUserWebsocket AuthStore.setAccessToken AuthStore.setCsrfToken
      sessionInv
    simp
  · unfold AuthStore.refreshOnOutcome
    simp only [hat, hct, if_true]
    cases hws : s.user_websocket with
    | none =>
      simp [sessionInv, isSome_of_truthy b.access_token hat,
        isSome_of_truthy b.csrf_token hct]
      exact huser
    | some ws =>
      by_cases hr : ws.ready = WSReady.openState
      · simp [hr, sessionInv, AuthStore.setUserWebsocket,
          isSome_of_truthy b.access_token hat,
          isSome_of_truthy b.csrf_token hct]
        exact huser
      · simp [hr, sessionInv, isSome_of_truthy b.access_token hat,
          isSome_of_truthy b.csrf_token hct]
        exact huser
  · unfold AuthStore.refreshOnOutcome
    simp

/-- The concrete authenticated store used by the C4 witness. -/
def witnessStore : AuthStore :=
  { user := { id := some 7 }, isAuthenticated := true,
    accessToken := some (("a")), csrfToken := some (("c")) }

theorem session_invariant_amended_witness :
    sessionInv witnessStore ∧
    truthy (some (("at2"))) = true ∧
    sessionInv (AuthStore.clearUser witnessStore {}).1 ∧
    (AuthStore.refreshOnOutcome witnessStore
        (Except.error (("boom")))).1.isAuthenticated = false := by
  have h := session_invariant_amended witnessStore
    {} {} (("sid")) (("atk")) (("ctk"))
    { access_token := some (("at2")), csrf_token := some (("ct2")) }
    (("boom")) (by decide) (by decide) (by decide)
  exact ⟨by decide, by decide, h.1, h.2.2.2.2.2.2.2⟩

/-- A single 401-recovery run of an eligible request: the request answers 401,
the refresh succeeds, the retried request succeeds. -/
def oneRecoveryScenario : World × Except String JsVal :=
  fetchWithRetry 5 (("profile/goals")) getJsonOptions
    { store := {}, storage := {},
      script := [{ status := 401, detail := some (("Unauthorized")), body := {} },
                 { status := 200, detail := none,
                   body := { access_token := some (("at1")),
                             csrf_token := some (("ct1")) } },
                 { status := 200, detail := none, body := { tag := ("goals") } }],
      effects := [] }

/-- C1 (code bug): the 401-recovery path invokes the store's refreshAccessToken,
which issues its own network call to auth/refresh on every invocation and never
consults the pending-refresh marker (that marker lives only in the uncalled
serviceUtils coordinator), so each concurrently failing request performs a
refresh call of its own: under the alternating schedule two tasks complete
having issued two calls to auth/refresh with both simultaneously in flight,
while a single recovery already accounts for exactly one such call. -/
theorem concurrent_401_duplicate_refresh :
    ((runTwo [false, true, false, true] TaskPC.start TaskPC.start {}).1
        = TaskPC.taskDone ∧
     (runTwo [false, true, false, true] TaskPC.start TaskPC.start {}).2.1
        = TaskPC.taskDone ∧
     (runTwo [false, true, false, true] TaskPC.start TaskPC.start {}).2.2.calls = 2 ∧
     (runTwo [false, true, false, true] TaskPC.start TaskPC.start {}).2.2.maxInFlight
        = 2) ∧
    countNetCalls (("auth/refresh")) oneRecoveryScenario.1.effects = 1 := by
  decide

/-- The MFA-verify 401 world: the verify call answers 401 with the invalid-code
detail, the refresh succeeds, the retried verify fails with the same 401, and
the logout POST answers 204. -/
def mfaScenario : World × Except String JsVal :=
  fetchWithRetry 5 (("auth/mfa/verify")) postJsonOptions
    { store := {}, storage := {},
      script := [{ status := 401, detail := some (("Invalid MFA code")), body := {} },
                 { status := 200, detail := none,
                   body := { access_token := some (("at2")),
                             csrf_token := some (("ct2")) } },
                 { status := 401, detail := some (("Invalid MFA code")), body := {} },
                 { status := 204, detail := none, body := {} }],
      effects := [] }

/-- C2 (code bug): a 401 from the real MFA-verify endpoint auth/mfa/verify whose
message contains the invalid-code text does not propagate to the caller: the
exemption in fetchWithRetry compares the url against mfa/verify, which never
matches the endpoint session.verifyMFAAndLogin posts to, so the refresh is
invoked (one network call to auth/refresh), the request is retried (two network
calls to auth/mfa/verify) and the caller finally observes undefined rather than
the invalid-code error. -/
theorem mfa_verify_401_not_exempt :
    countNetCalls (("auth/refresh")) mfaScenario.1.effects = 1 ∧
    countNetCalls (("auth/mfa/verify")) mfaScenario.1.effects = 2 ∧
    mfaScenario.2 = Except.ok JsVal.undef ∧
    ¬(mfaScenario.2 = Except.error (("401 - Invalid MFA code"))) := by
  decide

/-- An eligible request whose 401-triggered refresh fails: the request answers
401 with detail d, the refresh call answers rr, and the script then runs dry
(remaining calls fail as network errors). -/
def eligible401RefreshFail (s : AuthStore) (st : Storage) (d : Option String)
    (rr : HttpResponse) : World × Except String JsVal :=
  fetchWithRetry 5 (("profile/goals")) getJsonOptions
    { store := s, storage := st,
      script := [{ status := 401, detail := d, body := {} }, rr],
      effects := [] }

/-- C7 counterexample: in a refresh-failure teardown run from an authenticated
store, two network calls to auth/refresh occur while the request is handled
(the 401-recovery one, and a second issued by the logout routine after the
tokens were cleared), contradicting that no second refresh attempt is made. -/
theorem second_refresh_attempt_in_teardown :
    countNetCalls (("auth/refresh"))
      (eligible401RefreshFail
        { user := { id := some 3 }, isAuthenticated := true,
          accessToken := some (("tok")), csrfToken := some (("csr")) }
        {} (some (("expired"))) { status := 401, detail := none, body := {} }
      ).1.effects = 2 := by
  decide

/-- An error message built from a 401 starts with the 401 prefix, whatever the
payload detail was. -/
theorem jsStartsWith_401 (d : Option String) :
    jsStartsWith (errorMessageOf 401 d) (("401")) = true := by
  unfold errorMessageOf jsStartsWith
  have h : (toString (401 : Nat)) ++ ((" - ")) = (("401 - ")) := by rfl
  rw [h, String.data_append]
  have h2 : String.data (("401 - ")) = String.data (("401")) ++ String.data ((" - ")) := by
    rfl
  rw [h2, List.append_assoc]
  exact List.isPrefixOf_iff_prefix.mpr (List.prefix_append _ _)

/-- The scripted network-exhaustion error does not look like a 401. -/
theorem jsStartsWith_netErr :
    jsStartsWith (errorMessageOf 0 (some (("NETWORK_ERROR")))) (("401")) = false := by
  decide

/-- Counting net calls distributes over effect log concatenation. -/
theorem countNetCalls_append (u : String) (a b : List Effect) :
    countNetCalls u (a ++ b) = countNetCalls u a + countNetCalls u b := by
  unfold countNetCalls
  rw [List.filter_append, List.length_append]

/-- clearUser performs no network call. -/
theorem countNetCalls_clearUser (u : String) (s : AuthStore) (st : Storage) :
    countNetCalls u (AuthStore.clearUser s st).2.2 = 0 := by
  unfold AuthStore.clearUser countNetCalls
  cases s.user_websocket with
  | none => rfl
  | some ws =>
    by_cases h : ws.ready = WSReady.openState <;> simp [h]

/-- A 401 status is not ok. -/
theorem respOk_401 : respOk 401 = false := by decide

/-- The status-0 network failure is not ok. -/
theorem respOk_0 : respOk 0 = false := by decide

/-- C7 amended: when the refresh triggered by an eligible 401 fails, the session
state is cleared entirely (user record, both tokens, session id, websocket) and
the persisted user and session id are removed, and a redirect to the login entry
point with sessionExpired=true is issued; the original request is attempted
exactly once and never retried, but two network calls to auth/refresh occur:
the 401-recovery refresh, and a second attempt issued by the logout routine
because the tokens were already cleared. -/
theorem refresh_failure_teardown (s : AuthStore) (st : Storage) (d : Option String)
    (rr : HttpResponse) (hrr : respOk rr.status = false) :
    (eligible401RefreshFail s st d rr).1.store =
      { user := emptyUser, isAuthenticated := false, user_websocket := none,
        session_id := none, accessToken := none, csrfToken := none } ∧
    (eligible401RefreshFail s st d rr).1.storage =
      { user := none, session_id := none, lang := some (("us")) } ∧
    Effect.redirectTo (FRONTEND_URL ++ ("login?sessionExpired=true"))
      ∈ (eligible401RefreshFail s st d rr).1.effects ∧
    countNetCalls (("auth/refresh")) (eligible401RefreshFail s st d rr).1.effects = 2 ∧
    countNetCalls (("profile/goals")) (eligible401RefreshFail s st d rr).1.effects
      = 1 := by
  cases hws : s.user_websocket with
  | none =>
    simp [eligible401RefreshFail, fetchWithRetry, authStoreRefreshAccessToken,
      logoutUser, netAttempt, popResponse, attemptFetch, respOk_401, respOk_0,
      hrr, jsStartsWith_401, jsStartsWith_netErr, AuthStore.refreshOnOutcome,
      AuthStore.clearUser, setLocaleStorage, jsStringOf, countNetCalls, hws,
      truthy, emptyUser]
  | some ws =>
    by_cases hr : ws.ready = WSReady.openState <;>
      simp [eligible401RefreshFail, fetchWithRetry, authStoreRefreshAccessToken,
        logoutUser, netAttempt, popResponse, attemptFetch, respOk_401, respOk_0,
        hrr, jsStartsWith_401, jsStartsWith_netErr, AuthStore.refreshOnOutcome,
        AuthStore.clearUser, setLocaleStorage, jsStringOf, countNetCalls, hws, hr,
        truthy, emptyUser]

theorem refresh_failure_teardown_witness :
    respOk 500 = false ∧
    countNetCalls (("auth/refresh"))
      (eligible401RefreshFail {} {} none
        { status := 500, detail := none, body := {} }).1.effects = 2 ∧
    (eligible401RefreshFail {} {} none
      { status := 500, detail := none, body := {} }).1.storage.user = none := by
  have h := refresh_failure_teardown {} {} none
    { status := 500, detail := none, body := {} } (by decide)
  refine ⟨by decide, h.2.2.2.1, ?_⟩
  rw [h.2.1]

/-- C10 (implicit): when the refresh triggered by an eligible 401 fails, the
original caller's promise from fetchWithRetry resolves with undefined (no value
and no exception): the run ends in a non-error undefined result after the user
record and tokens were cleared and the sessionExpired redirect was issued;
neither the original 401 error nor the refresh error reaches the caller. -/
theorem refresh_failure_resolves_undefined (s : AuthStore) (st : Storage)
    (d : Option String) (rr : HttpResponse) (hrr : respOk rr.status = false) :
    (eligible401RefreshFail s st d rr).2 = Except.ok JsVal.undef ∧
    (eligible401RefreshFail s st d rr).1.store.user = emptyUser ∧
    (eligible401RefreshFail s st d rr).1.store.accessToken = none ∧
    Effect.redirectTo (FRONTEND_URL ++ ("login?sessionExpired=true"))
      ∈ (eligible401RefreshFail s st d rr).1.effects := by
  cases hws : s.user_websocket with
  | none =>
    simp [eligible401RefreshFail, fetchWithRetry, authStoreRefreshAccessToken,
      logoutUser, netAttempt, popResponse, attemptFetch, respOk_401, respOk_0,
      hrr, jsStartsWith_401, jsStartsWith_netErr, AuthStore.refreshOnOutcome,
      AuthStore.clearUser, setLocaleStorage, jsStringOf, hws, truthy, emptyUser]
  | some ws =>
    by_cases hr : ws.ready = WSReady.openState <;>
      simp [eligible401RefreshFail, fetchWithRetry, authStoreRefreshAccessToken,
        logoutUser, netAttempt, popResponse, attemptFetch, respOk_401, respOk_0,
        hrr, jsStartsWith_401, jsStartsWith_netErr, AuthStore.refreshOnOutcome,
        AuthStore.clearUser, setLocaleStorage, jsStringOf, hws, hr, truthy,
        emptyUser]

theorem refresh_failure_resolves_undefined_witness :
    respOk 503 = false ∧
    (eligible401RefreshFail {} {} (some (("expired")))
      { status := 503, detail := none, body := {} }).2 = Except.ok JsVal.undef := by
  have h := refresh_failure_resolves_undefined {} {} (some (("expired")))
    { status := 503, detail := none, body := {} } (by decide)
  exact ⟨by decide, h.1⟩
